import Mathlib

/-!
Shallow embedding of the `dugguu-agen` service-finder backend
(`app/main.py`, `app/tools/*.py`, `app/services/gemini_service.py`),
with theorems settling the frozen claims about it.

Python strings are modelled as Lean `String` / `List Char` (ASCII fragment:
the inputs the claims touch are ASCII); wall-clock instants are modelled as
natural numbers counting minutes; Python dicts keyed by user id are modelled
as functions into `Option`.
-/

namespace Dugguu

/-! ### Character-level helpers mirroring Python `str.lower`, `str.strip`,
and the `re` character classes `\d`, `\s`, `\w` (ASCII fragment). -/

/-- ASCII decimal digit, Python regex `\d` (ASCII fragment). -/
def isPyDigit (c : Char) : Bool :=
  '0' ≤ c && c ≤ '9'

/-- Numeric value of an ASCII digit. -/
def digitVal (c : Char) : Nat :=
  c.toNat - '0'.toNat

/-- Python regex `\s` (ASCII fragment): space, tab, newline, VT, FF, CR,
identified by code point. -/
def isPySpace (c : Char) : Bool :=
  c.toNat = 32 || c.toNat = 9 || c.toNat = 10 || c.toNat = 11 ||
    c.toNat = 12 || c.toNat = 13

/-- Python regex `\w` (ASCII fragment): letters, digits, underscore. -/
def isWordChar (c : Char) : Bool :=
  ('a' ≤ c && c ≤ 'z') || ('A' ≤ c && c ≤ 'Z') || isPyDigit c || c = '_'

/-- Python `str.lower` on one ASCII character (code points 65-90 shift to
97-122, everything else is unchanged). -/
def lowerChar (c : Char) : Char :=
  if 65 ≤ c.toNat && c.toNat ≤ 90 then Char.ofNat (c.toNat + 32) else c

/-- Python `str.lower` (ASCII fragment). -/
def pyLower (l : List Char) : List Char :=
  l.map lowerChar

/-- Python `str.strip`: drop leading and trailing whitespace. -/
def pyStrip (l : List Char) : List Char :=
  ((l.dropWhile isPySpace).reverse.dropWhile isPySpace).reverse

/-- Does `l` begin with `pat`? -/
def listStartsWith : List Char → List Char → Bool
  | [], _ => true
  | _ :: _, [] => false
  | a :: as, b :: bs => a = b && listStartsWith as bs

/-- Python `pat in l` substring test. -/
def containsSub (pat : List Char) : List Char → Bool
  | [] => pat.isEmpty
  | c :: t => listStartsWith pat (c :: t) || containsSub pat t

/-- `str.lower` lifted to `String`. -/
def strLower (s : String) : String :=
  String.mk (pyLower s.toList)

/-! ### `TAG_NAME_MAPPING` and `normalize_tag_name` (`app/main.py` 43-183) -/

/-- The `TAG_NAME_MAPPING` dict of `app/main.py`, in source order. -/
def TAG_NAME_MAPPING : List (String × String) :=
  [("doctor", "doctor"), ("doctors", "doctor"),
   ("physician", "doctor"), ("physicians", "doctor"),
   ("surgeon", "doctor"), ("surgeons", "doctor"),
   ("dentist", "dentist"), ("dentists", "dentist"),
   ("nurse", "nurse"), ("nurses", "nurse"),
   ("mla", "mla"), ("mlas", "mla"),
   ("mp", "mp"), ("mps", "mp"),
   ("minister", "minister"), ("ministers", "minister"),
   ("lawyer", "lawyer"), ("lawyers", "lawyer"),
   ("advocate", "lawyer"), ("advocates", "lawyer"),
   ("teacher", "teacher"), ("teachers", "teacher"),
   ("professor", "professor"), ("professors", "professor")]

/-- Python `dict.get(tag, tag)` over the association list. -/
def lookupTag (m : List (String × String)) (k : String) : Option String :=
  match m with
  | [] => none
  | (k', v) :: rest => if k' = k then some v else lookupTag rest k

/-- `normalize_tag_name` (`app/main.py` 177-183):
`tag = tag.lower().strip(); return TAG_NAME_MAPPING.get(tag, tag)`. -/
def normalize_tag_name (tag : String) : String :=
  let key := String.mk (pyStrip (pyLower tag.toList))
  (lookupTag TAG_NAME_MAPPING key).getD key

/-! ### `MARATHI_KEYWORDS` and `detect_language` (`app/main.py` 76-127) -/

/-- The `MARATHI_KEYWORDS` list of `app/main.py`, in source order
(duplicates kept as in the source; list membership ignores them). -/
def MARATHI_KEYWORDS : List String :=
  ["mi", "tu", "to", "te", "ho", "nahi", "kay", "ka", "kon", "kase",
   "kuthe", "kevha", "kiti", "ahe", "aahe", "hot", "hoti", "ahet",
   "mala", "tula", "tyala", "amhala", "tumhala", "tyanna", "pahije",
   "aai", "baba", "mulga", "mulgi", "ghar", "kam", "karnar", "karto",
   "karte", "kartoy", "kartos", "kartat", "kay", "kuth", "kich", "pan",
   "tar", "pudhe", "mule", "ithe", "thodi", "vel", "jau", "yeu", "ja",
   "ye", "gelo", "gela", "geli", "alo", "ali", "yet", "nako", "nka",
   "mhanun", "ki", "ani",
   "tyachya", "tyachi", "tya", "tyala", "tyanna", "tyanche", "tyanchi",
   "maza", "mazi", "majha", "majhi", "majhe", "majhya", "majhi",
   "tumcha", "tumchi", "tumche", "tumchya", "tumchya",
   "amcha", "amchi", "amche", "amchya", "amchya",
   "sobat", "sathi", "karun", "karat", "kela", "keli", "kele",
   "appointment", "meeting", "task", "work", "job", "kam",
   "aaj", "udya", "kal", "parwa", "divas", "ratri", "sakal", "sandhyakal",
   "kiti", "keti", "kuthe", "kuthe", "kase", "kasa", "kashi",
   "mhanje", "mhanun", "mhanon", "mhanat", "mhanala", "mhanali",
   "pahije", "pahijet", "pahijel", "pahijeli", "pahijele",
   "sakta", "saktat", "saktel", "sakteli", "saktele",
   "shakta", "shaktat", "shaktel", "shakteli", "shaktele",
   "sangta", "sangtat", "sangtel", "sangteli", "sangtele",
   "sang", "sanga", "sangna", "sangnar", "sangnar",
   "book", "booking", "schedule", "time", "date", "divas",
   "meet", "meeting", "appointment", "appointments",
   "karnar", "karnar", "karnar", "karnar", "karnar",
   "karto", "karte", "kartoy", "kartos", "kartat",
   "kela", "keli", "kele", "kelo", "keli",
   "hot", "hoti", "hota", "hotat", "hotel",
   "ahe", "aahe", "ahet", "aahet", "ahet",
   "nahi", "naka", "nko", "nka", "nhi"]

/-- `re.findall(r'\w+', text)`: maximal runs of word characters.
`acc` carries the current run, reversed. -/
def tokenizeAux : List Char → List Char → List (List Char)
  | [], acc => if acc.isEmpty then [] else [acc.reverse]
  | c :: t, acc =>
    if isWordChar c then tokenizeAux t (c :: acc)
    else if acc.isEmpty then tokenizeAux t []
    else acc.reverse :: tokenizeAux t []

/-- All `\w+` tokens of a character list, left to right. -/
def tokenize (l : List Char) : List (List Char) :=
  tokenizeAux l []

/-- `detect_language` (`app/main.py` 112-127).  Empty text returns `"en"`
(Python string truthiness); otherwise the text is lower-cased and tokenized
on `\w+`, Marathi keywords are counted, and the text is Marathi when the
keyword fraction exceeds 0.3.  When the text is non-empty but has no word
tokens, `marathi_word_count / len(words)` divides by zero: we model that
path as `Except.error "ZeroDivisionError"`.  The fraction comparison
`cnt / len > 0.3` is modelled exactly as the rational `10 * cnt > 3 * len`. -/
def detect_language (text : String) : Except String String :=
  if text = "" then .ok "en"
  else
    let words := tokenize (pyLower text.toList)
    let cnt := words.countP fun w => MARATHI_KEYWORDS.contains (String.mk w)
    if words.length = 0 then .error "ZeroDivisionError"
    else if 10 * cnt > 3 * words.length then .ok "mr"
    else .ok "en"

/-! ### `parse_date_time` (`app/main.py` 185-237)

The two regexes are concrete, so we embed them as direct matchers with
Python's leftmost-then-greedy backtracking order.  `\s*` is matched by
maximal munch, which is equivalent here because each `\s*` is followed by
`a`, `p`, `t` or a digit, none of which `\s` matches. -/

/-- The `am` / `pm` capture of the time regex. -/
inductive AmPm
  | am
  | pm
deriving DecidableEq, Repr

/-- The six captured groups of the time-range regex. -/
structure TimeGroups where
  sh : Nat
  sm : Option Nat
  sap : Option AmPm
  eh : Nat
  em : Option Nat
  eap : Option AmPm
deriving DecidableEq, Repr

/-- `\d{1,2}` greedy candidates: two digits first, then one. -/
def digitsChoices : List Char → List (Nat × List Char)
  | c1 :: c2 :: rest =>
    if isPyDigit c1 then
      if isPyDigit c2 then
        [(10 * digitVal c1 + digitVal c2, rest), (digitVal c1, c2 :: rest)]
      else [(digitVal c1, c2 :: rest)]
    else []
  | [c1] => if isPyDigit c1 then [(digitVal c1, [])] else []
  | [] => []

/-- First success of `f` over candidates, in order (backtracking). -/
def firstSome : List α → (α → Option β) → Option β
  | [], _ => none
  | a :: t, f => (f a).orElse fun _ => firstSome t f

/-- `(?::(\d{2}))?` candidates, greedy: with the group first, then without. -/
def colonChoices (l : List Char) : List (Option Nat × List Char) :=
  match l with
  | ':' :: c1 :: c2 :: rest =>
    if isPyDigit c1 && isPyDigit c2 then
      [(some (10 * digitVal c1 + digitVal c2), rest), (none, l)]
    else [(none, l)]
  | _ => [(none, l)]

/-- `(am|pm)?` candidates, greedy: `am`, then `pm`, then skip. -/
def amPmChoices (l : List Char) : List (Option AmPm × List Char) :=
  match l with
  | 'a' :: 'm' :: rest => [(some .am, rest), (none, l)]
  | 'p' :: 'm' :: rest => [(some .pm, rest), (none, l)]
  | _ => [(none, l)]

/-- The time-range regex
`(\d{1,2})(?::(\d{2}))?\s*(am|pm)?\s*to\s*(\d{1,2})(?::(\d{2}))?\s*(am|pm)?`
anchored at the head of `l`. -/
def matchTimeAt (l : List Char) : Option TimeGroups :=
  firstSome (digitsChoices l) fun sh_r =>
  firstSome (colonChoices sh_r.2) fun sm_r =>
  firstSome (amPmChoices (sm_r.2.dropWhile isPySpace)) fun sap_r =>
  match sap_r.2.dropWhile isPySpace with
  | 't' :: 'o' :: r6 =>
    firstSome (digitsChoices (r6.dropWhile isPySpace)) fun eh_r =>
    firstSome (colonChoices eh_r.2) fun em_r =>
    firstSome (amPmChoices (em_r.2.dropWhile isPySpace)) fun eap_r =>
    some ⟨sh_r.1, sm_r.1, sap_r.1, eh_r.1, em_r.1, eap_r.1⟩
  | _ => none

/-- Exactly `\d{4}`, the year group. -/
def fourDigits (l : List Char) : Option Nat :=
  match l with
  | a :: b :: c :: d :: _ =>
    if isPyDigit a && isPyDigit b && isPyDigit c && isPyDigit d then
      some (1000 * digitVal a + 100 * digitVal b + 10 * digitVal c + digitVal d)
    else none
  | _ => none

/-- The slash-or-hyphen separator class of the date regex. -/
def isDateSep (c : Char) : Bool :=
  c = '/' || c = '-'

/-- The date regex (one or two digits, separator, one or two digits,
separator, exactly four digits) anchored at the head of `l`. -/
def matchDateAt (l : List Char) : Option (Nat × Nat × Nat) :=
  firstSome (digitsChoices l) fun d_r =>
  match d_r.2 with
  | s1 :: r2 =>
    if isDateSep s1 then
      firstSome (digitsChoices r2) fun m_r =>
      match m_r.2 with
      | s2 :: r4 =>
        if isDateSep s2 then
          (fourDigits r4).map fun y => (d_r.1, m_r.1, y)
        else none
      | [] => none
    else none
  | [] => none

/-- `re.search`: try the anchored matcher at each start position, left to
right. -/
def searchList (f : List Char → Option β) : List Char → Option β
  | [] => f []
  | c :: t => (f (c :: t)).orElse fun _ => searchList f t

/-- `%02d` rendering. -/
def pad2 (n : Nat) : String :=
  if n < 10 then "0" ++ toString n else toString n

/-- 12-hour marker resolution (`app/main.py` 213-225): `pm` adds 12 to
hours below 12, `12am` becomes 0, everything else is unchanged. -/
def resolveHour (h : Nat) (ap : Option AmPm) : Nat :=
  if ap = some .pm ∧ h < 12 then h + 12
  else if ap = some .am ∧ h = 12 then 0
  else h

/-- `parse_date_time` (`app/main.py` 185-237).  The date regex is searched
on the raw input, the time regex on its lower-cased form; the Python triple
`(date, time, duration)` is modelled with `None` as `none`. -/
def parse_date_time (input_str : String) :
    Option String × Option String × Option Nat :=
  match searchList matchDateAt input_str.toList with
  | none => (none, none, none)
  | some (day, month, year) =>
    let date := toString year ++ "-" ++ pad2 month ++ "-" ++ pad2 day
    match searchList matchTimeAt (pyLower input_str.toList) with
    | none => (some date, none, none)
    | some g =>
      let startHour := resolveHour g.sh g.sap
      let endHour := resolveHour g.eh g.eap
      let startMin := g.sm.getD 0
      let endMin := g.em.getD 0
      let startTime := startHour * 60 + startMin
      let endTime0 := endHour * 60 + endMin
      let endTime := if endTime0 < startTime then endTime0 + 24 * 60 else endTime0
      let time := pad2 startHour ++ ":" ++ pad2 startMin ++ ":00"
      (some date, some time, some (endTime - startTime))

/-! ### Search cache (`app/main.py` 40, 251-275)

`search_cache` is a dict from user id to a dict from search key to
`{"result": ..., "timestamp": ...}`.  Timestamps are minutes; the result
payload is an arbitrary type `α`. -/

/-- Search-cache timeout in minutes (`SEARCH_CACHE_TIMEOUT`). -/
def SEARCH_CACHE_TIMEOUT : Nat := 30

/-- One `search_cache` entry: `{"result": result, "timestamp": timestamp}`. -/
structure CacheEntry (α : Type) where
  result : α
  timestamp : Nat
deriving DecidableEq, Repr

/-- The per-user inner dict of `search_cache`. -/
def UserCache (α : Type) := String → Option (CacheEntry α)

/-- The whole `search_cache` dict. -/
def SearchCache (α : Type) := String → Option (UserCache α)

/-- `get_cached_search` (`app/main.py` 251-265), with the current time made
explicit.  Returns the cached result (or `none`) together with the cache
state after the call: an entry read strictly more than
`SEARCH_CACHE_TIMEOUT` minutes after its write is deleted and reported as a
miss.  (The source's `if not cache_time` guard is unreachable for entries
written by `cache_search_result`, which always stores a timestamp.) -/
def get_cached_search (now : Nat) (cache : SearchCache α)
    (user_id search_key : String) : Option α × SearchCache α :=
  match cache user_id with
  | none => (none, cache)
  | some inner =>
    match inner search_key with
    | none => (none, cache)
    | some entry =>
      if now - entry.timestamp > SEARCH_CACHE_TIMEOUT then
        (none, fun u => if u = user_id then
          some (fun k => if k = search_key then none else inner k)
        else cache u)
      else (some entry.result, cache)

/-- `cache_search_result` (`app/main.py` 267-275), with the write time made
explicit. -/
def cache_search_result (now : Nat) (cache : SearchCache α)
    (user_id search_key : String) (result : α) : SearchCache α :=
  let inner := (cache user_id).getD fun _ => none
  fun u => if u = user_id then
    some (fun k => if k = search_key then some ⟨result, now⟩ else inner k)
  else cache u

/-! ### The `get_nearby_services` dispatch branch (`app/main.py` 700-727)

`search_key = f"{args.get('user_name','')}_{args.get('tagName','')}_{lat}_{lon}"`
is computed from the raw arguments; `normalize_tag_name` is applied to the
tag only inside the cache-miss branch, after the key was built.  `latS` and
`lonS` stand for the `f`-string renderings of the two floats. -/

/-- The cache key of the nearby-search dispatch, built from the raw
(pre-normalization) name and tag. -/
def buildSearchKey (user_name tagName : Option String) (latS lonS : String) :
    String :=
  user_name.getD "" ++ "_" ++ tagName.getD "" ++ "_" ++ latS ++ "_" ++ lonS

/-- Result of one nearby-search dispatch: the payload served, the cache
afterwards, and whether the backend was called. -/
structure DispatchResult (α : Type) where
  served : α
  cache : SearchCache α
  backendCalled : Bool

/-- The miss branch of the dispatch (`app/main.py` 708-727): normalize
the tag, call the backend, cache the result under the raw key. -/
def nearbyMiss (now : Nat) (cache' : SearchCache α) (user_id : String)
    (user_name tagName : Option String) (search_key : String)
    (backend : Option String → Option String → α) : DispatchResult α :=
  let normTag := tagName.map normalize_tag_name
  let result := backend user_name normTag
  ⟨result, cache_search_result now cache' user_id search_key result, true⟩

/-- The `get_nearby_services` dispatch branch (`app/main.py` 700-727):
check the cache under the raw key; `if cached_result:` serves a cache hit
only when the cached payload is truthy, so a falsy cached payload (such
as the empty degrade value) falls through to the miss branch; a miss
normalizes the tag, calls the backend and caches its result under the raw
key.  `isTruthy` models Python truthiness of the payload type and
`backend` abstracts the HTTP call of `get_nearby_services`, fed the name
and the normalized tag. -/
def nearbyDispatch (isTruthy : α → Bool) (now : Nat) (cache : SearchCache α)
    (user_id : String) (user_name tagName : Option String)
    (latS lonS : String) (backend : Option String → Option String → α) :
    DispatchResult α :=
  let search_key := buildSearchKey user_name tagName latS lonS
  match get_cached_search now cache user_id search_key with
  | (some cached, cache') =>
    if isTruthy cached then ⟨cached, cache', false⟩
    else nearbyMiss now cache' user_id user_name tagName search_key backend
  | (none, cache') =>
    nearbyMiss now cache' user_id user_name tagName search_key backend

/-! ### Backend adapters (`app/tools/*.py`)

Each adapter is modelled as a function of the auth-token slot and one
backend-call outcome.  `BackendOutcome.resp s b` is an HTTP response with
status `s` and (already-decoded) body `b`; `BackendOutcome.netFail` is a
network failure (`requests` raising before any response).
`requests.Response.raise_for_status` raises exactly for statuses in
`[400, 600)`.  An adapter result is `Except`: `.ok v` models a normal
return of `v`, `.error e` models an exception propagating to the caller. -/

/-- Outcome of one HTTP call made by an adapter. -/
inductive BackendOutcome (α : Type)
  | resp (status : Nat) (body : α)
  | netFail
deriving DecidableEq, Repr

/-- Exceptions an adapter can let escape. -/
inductive PyError
  | httpError (status : Nat)
  | netError
  | valueError (msg : String)
deriving DecidableEq, Repr

/-- `raise_for_status` raises for client and server error statuses. -/
def raisesForStatus (status : Nat) : Bool :=
  400 ≤ status && status < 600

/-- Python truthiness of the token slot: `if not token:` treats both
`None` and the empty string as missing. -/
def tokenTruthy : Option String → Bool
  | none => false
  | some t => !(t = "")

/-- A read adapter's value: the decoded body, or the adapter's hard-coded
empty fallback (`[]` in `service_tools.py` / `get_nearby_service.py`,
`{}` in `user_availability.py`). -/
inductive ReadValue (α : Type)
  | emptyFallback
  | body (b : α)
deriving DecidableEq, Repr

/-- `get_all_services` (`app/tools/service_tools.py` 18-41): no token or
any failure (non-200 status, network error) degrades to `[]`; only a 200
response returns its body.  Never raises. -/
def get_all_services (token : Option String) (o : BackendOutcome α) :
    Except PyError (ReadValue α) :=
  if !tokenTruthy token then .ok .emptyFallback
  else
    match o with
    | .resp status b =>
      if status = 200 then .ok (.body b) else .ok .emptyFallback
    | .netFail => .ok .emptyFallback

/-- `get_nearby_services` (`app/tools/get_nearby_service.py` 6-59): same
degrade-to-`[]` shape as `get_all_services`. -/
def get_nearby_services (token : Option String) (o : BackendOutcome α) :
    Except PyError (ReadValue α) :=
  if !tokenTruthy token then .ok .emptyFallback
  else
    match o with
    | .resp status b =>
      if status = 200 then .ok (.body b) else .ok .emptyFallback
    | .netFail => .ok .emptyFallback

/-- `get_user_availability` (`app/tools/user_availability.py` 12-50): no
token returns `{}`; otherwise `raise_for_status` runs and the `except`
block ends in a bare `raise`, so HTTP errors and network failures
propagate to the caller. -/
def get_user_availability (token : Option String) (o : BackendOutcome α) :
    Except PyError (ReadValue α) :=
  if !tokenTruthy token then .ok .emptyFallback
  else
    match o with
    | .resp s b =>
      if raisesForStatus s then .error (.httpError s) else .ok (.body b)
    | .netFail => .error .netError

/-- `create_task` (`app/tools/task_tools.py` 8-103): a missing token raises
`ValueError`; `raise_for_status` plus the bare `raise` in `except`
propagate HTTP errors and network failures. -/
def create_task (token : Option String) (o : BackendOutcome α) :
    Except PyError α :=
  if !tokenTruthy token then
    .error (.valueError "No authentication token available")
  else
    match o with
    | .resp s b => if raisesForStatus s then .error (.httpError s) else .ok b
    | .netFail => .error .netError

/-- `create_appointment` (`app/tools/appointment_tools.py` 8-88): same
propagation shape as `create_task` (its `except` clause catches only
`RequestException` and re-raises; the `ValueError` for a missing token is
not caught at all). -/
def create_appointment (token : Option String) (o : BackendOutcome α) :
    Except PyError α :=
  if !tokenTruthy token then
    .error (.valueError "No authentication token available")
  else
    match o with
    | .resp s b => if raisesForStatus s then .error (.httpError s) else .ok b
    | .netFail => .error .netError

/-! ### Module-level state and the `search` handler prefix
(`app/main.py` 29-40, 239-249, 317-669) -/

/-- A turn of `conversation_history` (the shapes the handler appends). -/
inductive Turn
  | userText (text : String)
  | modelCall (functionCall : String)
  | functionResponse (name : String) (response : String)
  | modelText (text : String)
deriving DecidableEq, Repr

/-- `appointment_context[user]`: the dict only ever holds the keys
`date`, `time`, `duration` (`app/main.py` 375-382, 868). -/
structure ApptCtx where
  date : Option String
  time : Option String
  duration : Option Nat
deriving DecidableEq, Repr

/-- The module-level mutable state of `app/main.py` and the
`_auth_token` slot of `app/tools/service_tools.py`. -/
structure ServerState where
  history : String → Option (List Turn)
  lastInteraction : String → Option Nat
  searchCache : SearchCache String
  apptContext : String → Option ApptCtx
  authToken : Option String

/-- `CONVERSATION_TIMEOUT = 2`; `clean_old_conversations` applies it as
`timedelta(minutes=CONVERSATION_TIMEOUT)`, so with minute-valued clocks
the idle threshold is 2. -/
def CONVERSATION_TIMEOUT : Nat := 2

/-- Is `u`'s session idle strictly longer than the timeout at `now`? -/
def isStale (now : Nat) (s : ServerState) (u : String) : Bool :=
  match s.lastInteraction u with
  | some t => decide (now - t > CONVERSATION_TIMEOUT)
  | none => false

/-- `clean_old_conversations` (`app/main.py` 239-249): for every user in
`last_interaction` whose idle time exceeds the timeout, delete the
conversation history, the last-interaction entry, and (when present) the
cache and appointment-context entries.  The loop body is per-user, so the
sweep is pointwise.  (The unconditional `del conversation_history[user_id]`
presumes the handler's invariant that every `last_interaction` key has a
`conversation_history` entry, which the handler maintains.) -/
def clean_old_conversations (now : Nat) (s : ServerState) : ServerState where
  history u := if isStale now s u then none else s.history u
  lastInteraction u := if isStale now s u then none else s.lastInteraction u
  searchCache u := if isStale now s u then none else s.searchCache u
  apptContext u := if isStale now s u then none else s.apptContext u
  authToken := s.authToken

/-- Python `str.replace`: replace all non-overlapping occurrences of
`pat` left to right (`fuel` bounds the recursion by the input length). -/
def replaceAllFuel (pat rep : List Char) : Nat → List Char → List Char
  | _, [] => []
  | 0, l => l
  | fuel + 1, c :: t =>
    if listStartsWith pat (c :: t) then
      rep ++ replaceAllFuel pat rep fuel (List.drop (pat.length - 1) t)
    else c :: replaceAllFuel pat rep fuel t

/-- Python `s.replace(pat, rep)` on strings. -/
def pyReplace (s pat rep : String) : String :=
  String.mk (replaceAllFuel pat.toList rep.toList s.toList.length s.toList)

/-- Lines 326-328 of `search` plus `set_auth_token`
(`app/tools/service_tools.py` 8-12): a truthy `authorization` overwrites
the process-wide slot with the value minus all `"Bearer "` occurrences;
`None` and `""` are falsy and leave the slot alone. -/
def applyAuth (authorization : Option String) (s : ServerState) : ServerState :=
  match authorization with
  | none => s
  | some a =>
    if a = "" then s
    else { s with authToken := some (pyReplace a "Bearer " "") }

/-- The canned localized responses of `app/main.py` 129-175, identified by
producing helper and language, plus a model-produced payload. -/
inductive ApiResponse
  | defaultResponse (lang : String)
  | locationError (lang : String)
  | personNotFound (lang : String)
  | fromModel (payload : String)
deriving DecidableEq, Repr

/-- Externally observable calls the handler can make. -/
inductive Event
  | llmCall
  | backendCall
deriving DecidableEq, Repr

/-- How far the handler prefix got: an early `return`, an uncaught
exception, or control proceeding into the post-LLM dispatch. -/
inductive HandlerOutcome
  | earlyReturn (resp : ApiResponse) (s : ServerState) (events : List Event)
  | raisesErr (err : String) (s : ServerState) (events : List Event)
  | proceeds (llmPayload : String) (s : ServerState) (events : List Event)

/-- The server state carried by a handler outcome. -/
def HandlerOutcome.state : HandlerOutcome → ServerState
  | .earlyReturn _ s _ => s
  | .raisesErr _ s _ => s
  | .proceeds _ s _ => s

/-- The events recorded by a handler outcome. -/
def HandlerOutcome.trace : HandlerOutcome → List Event
  | .earlyReturn _ _ ev => ev
  | .raisesErr _ _ ev => ev
  | .proceeds _ _ ev => ev

/-- The response of an early return, if the outcome is one. -/
def HandlerOutcome.response? : HandlerOutcome → Option ApiResponse
  | .earlyReturn r _ _ => some r
  | .raisesErr _ _ _ => none
  | .proceeds _ _ _ => none

/-- Does `s` parse under Python `float()`?  Modelled for ASCII input
without underscore digit separators: strip whitespace, optional sign, then
`inf` / `infinity` / `nan` (case-insensitive) or a decimal literal with at
least one digit and an optional exponent. -/
def splitDigits (l : List Char) : List Char × List Char :=
  (l.takeWhile isPyDigit, l.dropWhile isPyDigit)

/-- Optional exponent part followed by end of input. -/
def expOk (l : List Char) : Bool :=
  match l with
  | [] => true
  | c :: rest =>
    if c = 'e' || c = 'E' then
      let rest2 := match rest with
        | s :: r => if s = '+' || s = '-' then r else rest
        | [] => rest
      let (d, r) := splitDigits rest2
      !d.isEmpty && r.isEmpty
    else false

/-- Unsigned decimal float literal. -/
def decimalOk (l : List Char) : Bool :=
  let (ip, r1) := splitDigits l
  match r1 with
  | '.' :: r2 =>
    let (fp, r3) := splitDigits r2
    (!ip.isEmpty || !fp.isEmpty) && expOk r3
  | _ => !ip.isEmpty && expOk r1

/-- Python `float()` acceptance. -/
def pyFloatValid (s : String) : Bool :=
  let t := pyStrip s.toList
  let t2 := match t with
    | c :: r => if c = '+' || c = '-' then r else t
    | [] => t
  let low := pyLower t2
  low = ['i', 'n', 'f'] || low = ['i', 'n', 'f', 'i', 'n', 'i', 't', 'y'] ||
    low = ['n', 'a', 'n'] || decimalOk t2

/-- The appointment-trigger keywords of `app/main.py` 371, matched as
substrings of the lower-cased query. -/
def APPOINTMENT_KEYWORDS : List String :=
  ["appointment", "schedule", "book", "meet", "meeting"]

/-! Everything `search` (`app/main.py` 317-669) does up to and including
the first (analysis) Gemini call, as a state transformer.  `llm1` is that
call's outcome: `none` is `GeminiService.call_api`'s failure sentinel
(`app/services/gemini_service.py` 49-50), `some payload` a response.  The
processing after a successful first call (response parsing and the
function-call dispatch) is the `proceeds` continuation, whose pieces
(`nearbyDispatch`, the adapters) are modelled separately.  Steps in source
order: set the auth token if provided (326-328); sweep (331); detect the
language, which can raise `ZeroDivisionError` (341); validate the
coordinates and return the localized location error on failure (344-351);
initialize the conversation history and update `last_interaction`
(353-358); capture the appointment context when an appointment keyword
occurs and `parse_date_time` returns a fully truthy triple (370-382);
make the first Gemini call and return the localized default response on
the `None` sentinel (661-669).  The validated prefix is split into the
named steps `initSession` and `captureApptContext` below, combined in
`handlerPrefix`. -/

/-- Lines 353-358 of `search`: ensure the user has a (possibly empty)
conversation-history entry and set `last_interaction` to now. -/
def initSession (user_id : String) (now : Nat) (s2 : ServerState) :
    ServerState :=
  { s2 with
    history := fun u =>
      if u = user_id then some ((s2.history user_id).getD [])
      else s2.history u
    lastInteraction := fun u =>
      if u = user_id then some now else s2.lastInteraction u }

/-- Lines 370-382 of `search`: when an appointment keyword occurs in the
lower-cased query and `parse_date_time` yields a fully truthy triple
(`duration = 0` is falsy), store it in `appointment_context[user_id]`. -/
def captureApptContext (query user_id : String) (s3 : ServerState) :
    ServerState :=
  if APPOINTMENT_KEYWORDS.any fun w =>
      containsSub w.toList (pyLower query.toList) then
    match parse_date_time query with
    | (some date, some time, some duration) =>
      if duration ≠ 0 then
        { s3 with apptContext := fun u =>
            if u = user_id then some ⟨some date, some time, some duration⟩
            else s3.apptContext u }
      else s3
    | _ => s3
  else s3

/-- The `search` handler up to and including the first Gemini call, in
source order: token update, sweep, language detection (which can raise),
coordinate validation, session init, appointment-context capture, first
LLM call with its `None`-sentinel early return. -/
def handlerPrefix (query user_id latitude longitude : String)
    (authorization : Option String) (now : Nat) (llm1 : Option String)
    (s : ServerState) : HandlerOutcome :=
  let s2 := clean_old_conversations now (applyAuth authorization s)
  match detect_language query with
  | .error e => .raisesErr e s2 []
  | .ok lang =>
    if !(pyFloatValid latitude && pyFloatValid longitude) then
      .earlyReturn (.locationError lang) s2 []
    else
      let s4 := captureApptContext query user_id (initSession user_id now s2)
      match llm1 with
      | none => .earlyReturn (.defaultResponse lang) s4 [.llmCall]
      | some payload => .proceeds payload s4 [.llmCall]

/-- A concrete state in which user `"u1"` has a stale session (last
interaction at minute 0) holding one conversation turn and one cache
entry. -/
def staleSessionState : ServerState where
  history u := if u = "u1" then some [Turn.userText "hi"] else none
  lastInteraction u := if u = "u1" then some 0 else none
  searchCache u :=
    if u = "u1" then
      some fun k => if k = "key" then some ⟨"cached", 0⟩ else none
    else none
  apptContext _ := none
  authToken := none

/-! ## Shared helper lemmas -/

/-- A cache read at most `SEARCH_CACHE_TIMEOUT` minutes after the
corresponding write returns the stored value and leaves the cache alone. -/
theorem get_cached_after_put_fresh (cache : SearchCache α) (u k : String)
    (v : α) (t0 t1 : Nat) (h : t1 - t0 ≤ SEARCH_CACHE_TIMEOUT) :
    get_cached_search t1 (cache_search_result t0 cache u k v) u k =
      (some v, cache_search_result t0 cache u k v) := by
  have hnot : ¬ t1 - t0 > SEARCH_CACHE_TIMEOUT := Nat.not_lt.mpr h
  simp [get_cached_search, cache_search_result, hnot]

/-- A cache read strictly past the timeout is a miss. -/
theorem get_cached_after_put_stale (cache : SearchCache α) (u k : String)
    (v : α) (t0 t1 : Nat) (h : t1 - t0 > SEARCH_CACHE_TIMEOUT) :
    (get_cached_search t1 (cache_search_result t0 cache u k v) u k).1 = none := by
  simp [get_cached_search, cache_search_result, h]

/-- `applyAuth` changes at most the auth-token slot. -/
theorem applyAuth_fields (a : Option String) (s : ServerState) :
    (applyAuth a s).history = s.history ∧
    (applyAuth a s).lastInteraction = s.lastInteraction ∧
    (applyAuth a s).searchCache = s.searchCache ∧
    (applyAuth a s).apptContext = s.apptContext := by
  cases a with
  | none => exact ⟨rfl, rfl, rfl, rfl⟩
  | some x =>
    by_cases hx : x = "" <;> simp [applyAuth, hx]

/-- `Char.ofNat` of a small valid code point evaluates back to it. -/
theorem char_toNat_ofNat_of_lt (n : Nat) (h : n < 55296) :
    (Char.ofNat n).toNat = n := by
  unfold Char.ofNat
  rw [dif_pos (Or.inl h)]
  rfl

/-- `lowerChar` is idempotent: lowering lands outside the A-Z range. -/
theorem lowerChar_idem (c : Char) : lowerChar (lowerChar c) = lowerChar c := by
  by_cases h : 65 ≤ c.toNat ∧ c.toNat ≤ 90
  · have ht : (Char.ofNat (c.toNat + 32)).toNat = c.toNat + 32 :=
      char_toNat_ofNat_of_lt _ (by omega)
    have h90 : ¬ (Char.ofNat (c.toNat + 32)).toNat ≤ 90 := by omega
    simp [lowerChar, h.1, h.2, h90]
  · have hc : lowerChar c = c := by
      unfold lowerChar
      rw [if_neg]
      simp only [Bool.and_eq_true, decide_eq_true_eq]
      exact h
    rw [hc, hc]

/-- Lowering preserves whitespace-ness: A-Z and a-z are not whitespace. -/
theorem isPySpace_lowerChar (c : Char) :
    isPySpace (lowerChar c) = isPySpace c := by
  by_cases h : 65 ≤ c.toNat ∧ c.toNat ≤ 90
  · obtain ⟨h65, h90⟩ := h
    have ht : (Char.ofNat (c.toNat + 32)).toNat = c.toNat + 32 :=
      char_toNat_ofNat_of_lt _ (by omega)
    have hlc : lowerChar c = Char.ofNat (c.toNat + 32) := by
      simp [lowerChar, h65, h90]
    rw [hlc]
    have hL : isPySpace (Char.ofNat (c.toNat + 32)) = false := by
      simp only [isPySpace, ht, Bool.or_eq_false_iff, decide_eq_false_iff_not]
      omega
    have hR : isPySpace c = false := by
      simp only [isPySpace, Bool.or_eq_false_iff, decide_eq_false_iff_not]
      omega
    rw [hL, hR]
  · have hc : lowerChar c = c := by
      unfold lowerChar
      rw [if_neg]
      simp only [Bool.and_eq_true, decide_eq_true_eq]
      exact h
    rw [hc]

/-- `pyLower` is idempotent. -/
theorem pyLower_idem (l : List Char) : pyLower (pyLower l) = pyLower l := by
  induction l with
  | nil => rfl
  | cons c t ih =>
    simp only [pyLower, List.map_cons] at ih ⊢
    rw [lowerChar_idem, ih]

/-- `pyLower` commutes with dropping leading whitespace. -/
theorem dropWhile_pyLower (l : List Char) :
    (pyLower l).dropWhile isPySpace = pyLower (l.dropWhile isPySpace) := by
  induction l with
  | nil => rfl
  | cons c t ih =>
    simp only [pyLower, List.map_cons, List.dropWhile_cons,
      isPySpace_lowerChar] at ih ⊢
    by_cases h : isPySpace c = true <;> simp [h, ih]

/-- `pyLower` commutes with `reverse`. -/
theorem reverse_pyLower (l : List Char) :
    (pyLower l).reverse = pyLower l.reverse := by
  simp [pyLower, List.map_reverse]

/-- `pyLower` commutes with `pyStrip`. -/
theorem pyStrip_pyLower (l : List Char) :
    pyStrip (pyLower l) = pyLower (pyStrip l) := by
  unfold pyStrip
  rw [dropWhile_pyLower, reverse_pyLower, dropWhile_pyLower, reverse_pyLower]

/-- `dropWhile` is idempotent. -/
theorem dropWhile_dropWhile (p : α → Bool) (l : List α) :
    (l.dropWhile p).dropWhile p = l.dropWhile p := by
  induction l with
  | nil => rfl
  | cons a t ih =>
    by_cases h : p a = true <;> simp [List.dropWhile_cons, h, ih]

/-- `dropWhile` never lengthens a list. -/
theorem length_dropWhile_le (p : α → Bool) (l : List α) :
    (l.dropWhile p).length ≤ l.length := by
  induction l with
  | nil => simp
  | cons a t ih =>
    rw [List.dropWhile_cons]
    split
    · exact Nat.le_trans ih (Nat.le_succ _)
    · simp

/-- If `dropWhile` keeps a cons intact, its head fails the predicate. -/
theorem dropWhile_head_false {p : α → Bool} {a : α} {l : List α}
    (h : (a :: l).dropWhile p = a :: l) : p a = false := by
  cases hp : p a
  · rfl
  · rw [List.dropWhile_cons, if_pos hp] at h
    have hle := length_dropWhile_le p l
    rw [h] at hle
    simp at hle

/-- A prefix of a `dropWhile`-fixed list is itself `dropWhile`-fixed. -/
theorem dropWhile_eq_self_mono {p : α → Bool} {t l : List α}
    (hpre : t <+: l) (hl : l.dropWhile p = l) : t.dropWhile p = t := by
  cases t with
  | nil => rfl
  | cons a t' =>
    obtain ⟨r, hr⟩ := hpre
    rw [← hr, List.cons_append] at hl
    have hpa : p a = false := dropWhile_head_false hl
    rw [List.dropWhile_cons, if_neg (by simp [hpa])]

/-- `pyStrip` is idempotent. -/
theorem pyStrip_idem (l : List Char) : pyStrip (pyStrip l) = pyStrip l := by
  unfold pyStrip
  set A := l.dropWhile isPySpace with hA
  set B := A.reverse.dropWhile isPySpace with hB
  have hAfix : A.dropWhile isPySpace = A := dropWhile_dropWhile _ l
  have hBsuf : B.reverse.reverse <:+ A.reverse := by
    rw [List.reverse_reverse]
    exact List.dropWhile_suffix _
  have hBpre : B.reverse <+: A := List.reverse_suffix.mp hBsuf
  have h1 : B.reverse.dropWhile isPySpace = B.reverse :=
    dropWhile_eq_self_mono hBpre hAfix
  have h2 : B.dropWhile isPySpace = B := by
    rw [hB]
    exact dropWhile_dropWhile _ _
  rw [h1, List.reverse_reverse, h2]

/-- A successful `lookupTag` returns one of the mapping's values. -/
theorem lookupTag_mem {m : List (String × String)} {k v : String}
    (h : lookupTag m k = some v) : v ∈ m.map Prod.snd := by
  induction m with
  | nil => simp [lookupTag] at h
  | cons p rest ih =>
    obtain ⟨k', v'⟩ := p
    by_cases hk : k' = k
    · simp only [lookupTag, if_pos hk] at h
      simp [Option.some_inj.mp h]
    · simp only [lookupTag, if_neg hk] at h
      simp [ih h]

/-- `captureApptContext` changes at most the appointment context. -/
theorem captureApptContext_fields (q u : String) (s : ServerState) :
    (captureApptContext q u s).history = s.history ∧
    (captureApptContext q u s).lastInteraction = s.lastInteraction ∧
    (captureApptContext q u s).searchCache = s.searchCache ∧
    (captureApptContext q u s).authToken = s.authToken := by
  unfold captureApptContext
  repeat' split
  all_goals exact ⟨rfl, rfl, rfl, rfl⟩

/-- Whatever branch the handler prefix takes, the auth-token slot of the
resulting state is the one produced by the `set_auth_token` step. -/
theorem handlerPrefix_authToken (query user_id latitude longitude : String)
    (authorization : Option String) (now : Nat) (llm1 : Option String)
    (s : ServerState) :
    (handlerPrefix query user_id latitude longitude authorization now llm1
        s).state.authToken = (applyAuth authorization s).authToken := by
  have hcap := (captureApptContext_fields query user_id
    (initSession user_id now
      (clean_old_conversations now (applyAuth authorization s)))).2.2.2
  unfold handlerPrefix
  split
  · rfl
  · split
    · rfl
    · cases llm1 <;> simpa [HandlerOutcome.state, initSession,
        clean_old_conversations] using hcap

/-! ## Claim theorems -/

/-- C1, counterexample: the claim says the availability lookup, a read
adapter, degrades a non-2xx response to an empty nothing-found value
without raising; but `get_user_availability` re-raises from its `except`
block, so a 404 response propagates as an exception. -/
theorem c1_availability_raises_counterexample :
    get_user_availability (α := Unit) (some "token") (.resp 404 ()) =
      .error (.httpError 404) := rfl

/-- C1, amended: on any non-200 response or network failure the
service-listing and nearby-search adapters return the empty nothing-found
value without raising; the availability lookup behaves like the write
adapters instead: on any HTTP-error status (400-599) or network failure
it, task creation and appointment creation all propagate the failure to
the caller as an exception, never reporting success. -/
theorem c1_read_write_failure_behaviour {α : Type} (tok : String) (s : Nat)
    (b : α) (htok : tok ≠ "") :
    (s ≠ 200 →
      get_all_services (some tok) (.resp s b) = .ok .emptyFallback ∧
      get_nearby_services (some tok) (.resp s b) = .ok .emptyFallback) ∧
    (get_all_services (α := α) (some tok) .netFail = .ok .emptyFallback ∧
      get_nearby_services (α := α) (some tok) .netFail = .ok .emptyFallback) ∧
    (400 ≤ s → s < 600 →
      get_user_availability (some tok) (.resp s b) = .error (.httpError s) ∧
      create_task (some tok) (.resp s b) = .error (.httpError s) ∧
      create_appointment (some tok) (.resp s b) = .error (.httpError s)) ∧
    (get_user_availability (α := α) (some tok) .netFail = .error .netError ∧
      create_task (α := α) (some tok) .netFail = .error .netError ∧
      create_appointment (α := α) (some tok) .netFail = .error .netError) := by
  have htt : tokenTruthy (some tok) = true := by simp [tokenTruthy, htok]
  refine ⟨fun h => ?_, ?_, fun h4 h6 => ?_, ?_⟩
  · simp [get_all_services, get_nearby_services, htt, h]
  · simp [get_all_services, get_nearby_services, htt]
  · have hb : raisesForStatus s = true := by
      simp [raisesForStatus]; omega
    simp [get_user_availability, create_task, create_appointment, htt, hb]
  · simp [get_user_availability, create_task, create_appointment, htt]

/-- C1 witness: a 503 backend response makes the nearby search degrade to
empty and task creation raise. -/
theorem c1_read_write_failure_behaviour_witness :
    get_nearby_services (α := Unit) (some "token") (.resp 503 ()) =
      .ok .emptyFallback ∧
    create_task (α := Unit) (some "token") (.resp 503 ()) =
      .error (.httpError 503) :=
  ⟨((c1_read_write_failure_behaviour "token" 503 () (by decide)).1
      (by decide)).2,
    ((c1_read_write_failure_behaviour "token" 503 () (by decide)).2.2.1
      (by decide) (by decide)).2.1⟩

/-- C2: `parse_date_time` turns a date token into `YYYY-MM-DD` and a time
range into a `HH:MM:00` start time with 12-hour markers resolved (`12am`
to hour 0, `12pm` unchanged, other `pm` hours plus 12) and an
end-minus-start duration with 24 hours added on overnight wrap
(`"13/6/2025 2pm to 3pm"` gives `("2025-06-13", "14:00:00", 60)`,
`"1-1-2025 11pm to 1am"` gives duration 120); with no date token all three
results are absent; with a date but no time range only the date is
returned. -/
theorem c2_parse_date_time :
    parse_date_time "13/6/2025 2pm to 3pm" =
      (some "2025-06-13", some "14:00:00", some 60) ∧
    parse_date_time "1-1-2025 11pm to 1am" =
      (some "2025-01-01", some "23:00:00", some 120) ∧
    (∀ s : String, searchList matchDateAt s.toList = none →
      parse_date_time s = (none, none, none)) ∧
    (∀ (s : String) (d m y : Nat),
      searchList matchDateAt s.toList = some (d, m, y) →
      searchList matchTimeAt (pyLower s.toList) = none →
      parse_date_time s =
        (some (toString y ++ "-" ++ pad2 m ++ "-" ++ pad2 d), none, none)) ∧
    (∀ (s : String) (d m y : Nat) (g : TimeGroups),
      searchList matchDateAt s.toList = some (d, m, y) →
      searchList matchTimeAt (pyLower s.toList) = some g →
      parse_date_time s =
        (some (toString y ++ "-" ++ pad2 m ++ "-" ++ pad2 d),
         some (pad2 (resolveHour g.sh g.sap) ++ ":" ++ pad2 (g.sm.getD 0) ++
           ":00"),
         some ((if resolveHour g.eh g.eap * 60 + g.em.getD 0 <
                  resolveHour g.sh g.sap * 60 + g.sm.getD 0 then
                  resolveHour g.eh g.eap * 60 + g.em.getD 0 + 24 * 60
                else resolveHour g.eh g.eap * 60 + g.em.getD 0) -
           (resolveHour g.sh g.sap * 60 + g.sm.getD 0)))) ∧
    resolveHour 12 (some .am) = 0 ∧
    resolveHour 12 (some .pm) = 12 ∧
    (∀ h : Nat, h < 12 → resolveHour h (some .pm) = h + 12) ∧
    (∀ (h : Nat) (ap : Option AmPm), ap = some .am → h ≠ 12 →
      resolveHour h ap = h) := by
  refine ⟨by decide, by decide, ?_, ?_, ?_, rfl, rfl, ?_, ?_⟩
  · intro s hd
    have hd' : searchList matchDateAt s.data = none := hd
    simp [parse_date_time, hd']
  · intro s d m y hd ht
    have hd' : searchList matchDateAt s.data = some (d, m, y) := hd
    have ht' : searchList matchTimeAt (pyLower s.data) = none := ht
    simp [parse_date_time, hd', ht']
  · intro s d m y g hd ht
    have hd' : searchList matchDateAt s.data = some (d, m, y) := hd
    have ht' : searchList matchTimeAt (pyLower s.data) = some g := ht
    simp [parse_date_time, hd', ht']
  · intro h hlt
    simp [resolveHour, hlt]
  · intro h ap hap hne
    subst hap
    simp [resolveHour, hne]

/-- C2 witness: the dateless input `"no date"` satisfies the no-date
hypothesis and parses to the all-absent triple, and hour 2 pm resolves to
14. -/
theorem c2_parse_date_time_witness :
    parse_date_time "no date" = (none, none, none) ∧
    resolveHour 2 (some .pm) = 14 :=
  ⟨c2_parse_date_time.2.2.1 "no date" rfl,
    c2_parse_date_time.2.2.2.2.2.2.2.1 2 (by decide)⟩

/-- C3: the sweep deletes the conversation history, last-interaction
entry, cache entries and pending-appointment state of every session idle
strictly longer than the timeout, together, and leaves every session
within the timeout untouched. -/
theorem c3_sweep_deletes_expired_sessions (s : ServerState) (now : Nat)
    (u : String) (t : Nat) (hlast : s.lastInteraction u = some t) :
    (now - t > CONVERSATION_TIMEOUT →
      (clean_old_conversations now s).history u = none ∧
      (clean_old_conversations now s).lastInteraction u = none ∧
      (clean_old_conversations now s).searchCache u = none ∧
      (clean_old_conversations now s).apptContext u = none) ∧
    (now - t ≤ CONVERSATION_TIMEOUT →
      (clean_old_conversations now s).history u = s.history u ∧
      (clean_old_conversations now s).lastInteraction u = some t ∧
      (clean_old_conversations now s).searchCache u = s.searchCache u ∧
      (clean_old_conversations now s).apptContext u = s.apptContext u) := by
  constructor
  · intro h
    simp [clean_old_conversations, isStale, hlast, h]
  · intro h
    have hnot : ¬ now - t > CONVERSATION_TIMEOUT := Nat.not_lt.mpr h
    simp [clean_old_conversations, isStale, hlast, hnot]

/-- C3 witness: at time 10 a session last touched at time 0 is fully
removed by the sweep. -/
theorem c3_sweep_deletes_expired_sessions_witness :
    (clean_old_conversations 10
      ⟨fun _ => some [], fun _ => some 0, fun _ => none, fun _ => none,
        none⟩).history "u" = none :=
  ((c3_sweep_deletes_expired_sessions _ 10 "u" 0 rfl).1 (by decide)).1

/-- C4, counterexample: the read-failure degrade value (an empty list) is
cached; a read one minute later does return that stored empty result, yet
the dispatch's `if cached_result:` treats it as falsy and calls the
backend again — contradicting "returns exactly the stored result without
a new backend call" for every stored result. -/
theorem c4_falsy_hit_counterexample :
    (get_cached_search 1
        (cache_search_result 0 (fun _ => none) "u"
          (buildSearchKey none (some "doctor") "1.0" "2.0")
          ([] : List String)) "u"
        (buildSearchKey none (some "doctor") "1.0" "2.0")).1 =
      some [] ∧
    (nearbyDispatch (fun l => !l.isEmpty) 1
        (cache_search_result 0 (fun _ => none) "u"
          (buildSearchKey none (some "doctor") "1.0" "2.0")
          ([] : List String))
        "u" none (some "doctor") "1.0" "2.0"
        fun _ _ => ([] : List String)).backendCalled = true := by
  exact ⟨rfl, rfl⟩

/-- C4, amended: a cache read within 30 minutes of the write returns
exactly the stored result and leaves the cache unchanged, and the
dispatch serves a truthy stored result without a new backend call; a
falsy stored result (the empty degrade value) is treated by the dispatch
as a miss and the backend is called again; a read strictly after the
timeout reports a miss and deletes exactly that entry. -/
theorem c4_cache_expiry (cache : SearchCache α) (u k : String) (v : α)
    (t0 t1 : Nat) :
    (t1 - t0 ≤ SEARCH_CACHE_TIMEOUT →
      get_cached_search t1 (cache_search_result t0 cache u k v) u k =
        (some v, cache_search_result t0 cache u k v)) ∧
    (t1 - t0 > SEARCH_CACHE_TIMEOUT →
      (get_cached_search t1 (cache_search_result t0 cache u k v) u k).1 =
        none ∧
      (((get_cached_search t1 (cache_search_result t0 cache u k v) u k).2 u).getD
          (fun _ => none)) k = none ∧
      (∀ k', k' ≠ k →
        (((get_cached_search t1 (cache_search_result t0 cache u k v) u k).2 u).getD
            (fun _ => none)) k' =
          ((cache u).getD (fun _ => none)) k') ∧
      (∀ u', u' ≠ u →
        (get_cached_search t1 (cache_search_result t0 cache u k v) u k).2 u' =
          cache u')) ∧
    (∀ (isTruthy : α → Bool) (name tag : Option String)
        (latS lonS : String)
        (backend : Option String → Option String → α),
      t1 - t0 ≤ SEARCH_CACHE_TIMEOUT →
      (isTruthy v = true →
        (nearbyDispatch isTruthy t1
            (cache_search_result t0 cache u
              (buildSearchKey name tag latS lonS) v)
            u name tag latS lonS backend).backendCalled = false ∧
        (nearbyDispatch isTruthy t1
            (cache_search_result t0 cache u
              (buildSearchKey name tag latS lonS) v)
            u name tag latS lonS backend).served = v) ∧
      (isTruthy v = false →
        (nearbyDispatch isTruthy t1
            (cache_search_result t0 cache u
              (buildSearchKey name tag latS lonS) v)
            u name tag latS lonS backend).backendCalled = true)) := by
  refine ⟨get_cached_after_put_fresh cache u k v t0 t1, fun h => ?_, ?_⟩
  · refine ⟨get_cached_after_put_stale cache u k v t0 t1 h, ?_, ?_, ?_⟩
    · simp [get_cached_search, cache_search_result, h]
    · intro k' hk'
      simp [get_cached_search, cache_search_result, h, hk']
    · intro u' hu'
      simp [get_cached_search, cache_search_result, h, hu']
  · intro isTruthy name tag latS lonS backend h
    have hput := get_cached_after_put_fresh cache u
      (buildSearchKey name tag latS lonS) v t0 t1 h
    constructor
    · intro htr
      constructor <;> simp [nearbyDispatch, hput, htr]
    · intro htr
      simp [nearbyDispatch, hput, htr, nearbyMiss]

/-- C4 witness: write at minute 0, read at minute 30 is a hit with the
stored value; a truthy hit skips the backend; read at minute 31 is a
miss. -/
theorem c4_cache_expiry_witness :
    get_cached_search 30
        (cache_search_result 0 (fun _ => none) "u" "k" "payload") "u" "k" =
      (some "payload",
        cache_search_result 0 (fun _ => none) "u" "k" "payload") ∧
    (get_cached_search 31
        (cache_search_result 0 (fun _ => none) "u" "k" "payload") "u"
        "k").1 = none ∧
    (nearbyDispatch (fun s => !(s = "")) 5
        (cache_search_result 0 (fun _ => none) "u"
          (buildSearchKey none none "1.0" "2.0") "payload")
        "u" none none "1.0" "2.0" fun _ _ => "x").backendCalled = false :=
  ⟨(c4_cache_expiry (fun _ => none) "u" "k" "payload" 0 30).1 (by decide),
    ((c4_cache_expiry (fun _ => none) "u" "k" "payload" 0 31).2.1
      (by decide)).1,
    (((c4_cache_expiry (fun _ => none) "u"
        (buildSearchKey none none "1.0" "2.0") "payload" 0 5).2.2
      (fun s => !(s = "")) none none "1.0" "2.0" (fun _ _ => "x")
      (by decide)).1 (by decide)).1⟩

/-- C5, counterexample: a request with unparseable latitude `"abc"` and a
token-less query `"!!!"` from a user whose session is stale does not
return the localized invalid-coordinates error (the language detector
raises first), and the start-of-request sweep has already deleted the
requesting user's cache entry, so the session is mutated. -/
theorem c5_invalid_coordinates_counterexample :
    handlerPrefix "!!!" "u1" "abc" "0" none 10 none staleSessionState =
      .raisesErr "ZeroDivisionError"
        (clean_old_conversations 10 staleSessionState) [] ∧
    (handlerPrefix "!!!" "u1" "abc" "0" none 10 none
        staleSessionState).state.searchCache "u1" = none ∧
    staleSessionState.searchCache "u1" ≠ none := by
  refine ⟨rfl, rfl, by simp [staleSessionState]⟩

/-- C5, amended: for a request whose query has at least one word token
(otherwise the language detector raises before validation) and whose
latitude or longitude does not parse as a float, the handler returns the
localized invalid-coordinates error and terminates with no LLM and no
backend call; the only session-state change is the start-of-request
expiry sweep, and a requesting user whose session is within the timeout
is left completely untouched. -/
theorem c5_invalid_coordinates (query user_id latitude longitude : String)
    (authorization : Option String) (now : Nat) (llm1 : Option String)
    (s : ServerState) (lang : String)
    (hdet : detect_language query = .ok lang)
    (hbad : pyFloatValid latitude = false ∨ pyFloatValid longitude = false) :
    handlerPrefix query user_id latitude longitude authorization now llm1 s =
      .earlyReturn (.locationError lang)
        (clean_old_conversations now (applyAuth authorization s)) [] ∧
    (∀ t, s.lastInteraction user_id = some t →
      now - t ≤ CONVERSATION_TIMEOUT →
      (handlerPrefix query user_id latitude longitude authorization now llm1
          s).state.history user_id = s.history user_id ∧
      (handlerPrefix query user_id latitude longitude authorization now llm1
          s).state.lastInteraction user_id = some t ∧
      (handlerPrefix query user_id latitude longitude authorization now llm1
          s).state.searchCache user_id = s.searchCache user_id ∧
      (handlerPrefix query user_id latitude longitude authorization now llm1
          s).state.apptContext user_id = s.apptContext user_id) := by
  obtain ⟨ha1, ha2, ha3, ha4⟩ := applyAuth_fields authorization s
  have hmain :
      handlerPrefix query user_id latitude longitude authorization now llm1 s =
        .earlyReturn (.locationError lang)
          (clean_old_conversations now (applyAuth authorization s)) [] := by
    rcases hbad with h | h <;> simp [handlerPrefix, hdet, h]
  refine ⟨hmain, fun t hl hfresh => ?_⟩
  have hnot : ¬ now - t > CONVERSATION_TIMEOUT := Nat.not_lt.mpr hfresh
  rw [hmain]
  simp [HandlerOutcome.state, clean_old_conversations, isStale, ha1, ha2,
    ha3, ha4, hl, hnot]

/-- C5 witness: query `"hello"`, latitude `"abc"` and a fresh session
(last interaction at the current minute) give the localized location
error with the session untouched. -/
theorem c5_invalid_coordinates_witness :
    handlerPrefix "hello" "u1" "abc" "0" none 0 none staleSessionState =
      .earlyReturn (.locationError "en")
        (clean_old_conversations 0 (applyAuth none staleSessionState)) [] ∧
    (handlerPrefix "hello" "u1" "abc" "0" none 0 none
        staleSessionState).state.history "u1" =
      staleSessionState.history "u1" :=
  ⟨(c5_invalid_coordinates "hello" "u1" "abc" "0" none 0 none
      staleSessionState "en" rfl (Or.inl rfl)).1,
    ((c5_invalid_coordinates "hello" "u1" "abc" "0" none 0 none
        staleSessionState "en" rfl (Or.inl rfl)).2 0 rfl (by decide)).1⟩

/-- C6: when the first (analysis) Gemini call returns the `None` failure
sentinel, the request terminates right after that single LLM call with
the detected-language default fallback message, and no turn is appended
to the user's conversation history: the final history is exactly the
post-sweep history (initialized to empty if absent), and for a session
within the timeout it is exactly the pre-request history. -/
theorem c6_llm_failure_sentinel (query user_id latitude longitude : String)
    (authorization : Option String) (now : Nat) (s : ServerState)
    (lang : String) (hdet : detect_language query = .ok lang)
    (hlat : pyFloatValid latitude = true)
    (hlon : pyFloatValid longitude = true) :
    (handlerPrefix query user_id latitude longitude authorization now none
        s).response? = some (.defaultResponse lang) ∧
    (handlerPrefix query user_id latitude longitude authorization now none
        s).trace = [.llmCall] ∧
    (handlerPrefix query user_id latitude longitude authorization now none
        s).state.history user_id =
      some (((clean_old_conversations now
        (applyAuth authorization s)).history user_id).getD []) ∧
    (∀ h0 t, s.history user_id = some h0 →
      s.lastInteraction user_id = some t →
      now - t ≤ CONVERSATION_TIMEOUT →
      (handlerPrefix query user_id latitude longitude authorization now none
          s).state.history user_id = some h0) := by
  obtain ⟨ha1, ha2, _, _⟩ := applyAuth_fields authorization s
  have hmain :
      handlerPrefix query user_id latitude longitude authorization now none
          s =
        .earlyReturn (.defaultResponse lang)
          (captureApptContext query user_id (initSession user_id now
            (clean_old_conversations now (applyAuth authorization s))))
          [.llmCall] := by
    simp [handlerPrefix, hdet, hlat, hlon]
  have hcap := (captureApptContext_fields query user_id
    (initSession user_id now
      (clean_old_conversations now (applyAuth authorization s)))).1
  have hhist :
      (handlerPrefix query user_id latitude longitude authorization now none
          s).state.history user_id =
        some (((clean_old_conversations now
          (applyAuth authorization s)).history user_id).getD []) := by
    rw [hmain]
    show (captureApptContext query user_id (initSession user_id now
      (clean_old_conversations now
        (applyAuth authorization s)))).history user_id = _
    rw [hcap]
    simp [initSession]
  refine ⟨by rw [hmain]; rfl, by rw [hmain]; rfl, hhist,
    fun h0 t hh hl hfresh => ?_⟩
  have hnot : ¬ now - t > CONVERSATION_TIMEOUT := Nat.not_lt.mpr hfresh
  rw [hhist]
  simp [clean_old_conversations, isStale, ha1, ha2, hl, hnot, hh]

/-- C6 witness: a sentinel first-call outcome on a fresh session returns
the English default response after exactly one LLM call, leaving the
stored history turn in place. -/
theorem c6_llm_failure_sentinel_witness :
    (handlerPrefix "hello" "u1" "1.5" "2.5" none 0 none
        staleSessionState).response? = some (.defaultResponse "en") ∧
    (handlerPrefix "hello" "u1" "1.5" "2.5" none 0 none
        staleSessionState).state.history "u1" = some [Turn.userText "hi"] :=
  ⟨(c6_llm_failure_sentinel "hello" "u1" "1.5" "2.5" none 0
      staleSessionState "en" rfl rfl rfl).1,
    (c6_llm_failure_sentinel "hello" "u1" "1.5" "2.5" none 0
        staleSessionState "en" rfl rfl rfl).2.2.2 [Turn.userText "hi"] 0
      rfl rfl (by decide)⟩

/-- C7, counterexample: `"Doctors"` and `"doctor"` normalize to the same
canonical tag, yet the cache key is built from the raw tag before
normalization runs, so the second search at the same coordinates within
the timeout misses the cache and calls the backend, contradicting the
claimed normalized addressing. -/
theorem c7_normalized_key_counterexample :
    normalize_tag_name "Doctors" = normalize_tag_name "doctor" ∧
    (nearbyDispatch (fun s => !(s = "")) 1
        (nearbyDispatch (fun s => !(s = "")) 0 (fun _ => none) "u" none
          (some "Doctors") "10.0" "20.0" fun _ _ => "payload").cache
        "u" none (some "doctor") "10.0" "20.0"
        fun _ _ => "payload").backendCalled = true := by
  exact ⟨rfl, rfl⟩

/-- C7, amended: the cache key is the tuple of raw (un-normalized)
name-or-empty, raw tag-or-empty and the rendered coordinates, computed
before `normalize_tag_name` runs; a miss calls the backend with the
normalized tag and stores the result under the raw key, and a repeat
search with identical raw arguments within the cache timeout is a hit
that skips the backend; raw tags that merely normalize to the same
canonical form address different entries. -/
theorem c7_cache_key_is_raw (isTruthy : α → Bool) (cache : SearchCache α)
    (u : String) (name tag : Option String) (latS lonS : String)
    (backend : Option String → Option String → α) (t0 t1 : Nat)
    (hmiss : (get_cached_search t0 cache u
      (buildSearchKey name tag latS lonS)).1 = none)
    (hfresh : t1 - t0 ≤ SEARCH_CACHE_TIMEOUT)
    (htruthy : isTruthy (backend name (tag.map normalize_tag_name)) = true) :
    buildSearchKey name tag latS lonS =
      name.getD "" ++ "_" ++ tag.getD "" ++ "_" ++ latS ++ "_" ++ lonS ∧
    (nearbyDispatch isTruthy t0 cache u name tag latS lonS
        backend).backendCalled = true ∧
    (nearbyDispatch isTruthy t0 cache u name tag latS lonS backend).served =
      backend name (tag.map normalize_tag_name) ∧
    (nearbyDispatch isTruthy t1
        (nearbyDispatch isTruthy t0 cache u name tag latS lonS backend).cache
        u name tag latS lonS backend).backendCalled = false ∧
    (nearbyDispatch isTruthy t1
        (nearbyDispatch isTruthy t0 cache u name tag latS lonS backend).cache
        u name tag latS lonS backend).served =
      backend name (tag.map normalize_tag_name) := by
  have hpair : get_cached_search t0 cache u
      (buildSearchKey name tag latS lonS) =
      (none, (get_cached_search t0 cache u
        (buildSearchKey name tag latS lonS)).2) :=
    Prod.ext hmiss rfl
  have hfirst : nearbyDispatch isTruthy t0 cache u name tag latS lonS
      backend =
      ⟨backend name (tag.map normalize_tag_name),
        cache_search_result t0
          (get_cached_search t0 cache u
            (buildSearchKey name tag latS lonS)).2 u
          (buildSearchKey name tag latS lonS)
          (backend name (tag.map normalize_tag_name)), true⟩ := by
    rw [nearbyDispatch, hpair]
    rfl
  have hhit := get_cached_after_put_fresh
    (get_cached_search t0 cache u (buildSearchKey name tag latS lonS)).2 u
    (buildSearchKey name tag latS lonS)
    (backend name (tag.map normalize_tag_name)) t0 t1 hfresh
  refine ⟨rfl, by rw [hfirst], by rw [hfirst], ?_, ?_⟩ <;>
    rw [hfirst] <;> simp [nearbyDispatch, hhit, htruthy]

/-- C7 witness: a nearby search that misses an empty cache followed by an
identical raw search five minutes later serves the first result without
calling the backend. -/
theorem c7_cache_key_is_raw_witness :
    (nearbyDispatch Option.isSome 5
        (nearbyDispatch Option.isSome 0 (fun _ => none) "u" none
          (some "doctor") "1.0" "2.0" fun _ t => t).cache
        "u" none (some "doctor") "1.0" "2.0"
        fun _ t => t).backendCalled = false :=
  (c7_cache_key_is_raw Option.isSome (fun _ => none) "u" none
    (some "doctor") "1.0" "2.0" (fun _ t => t) 0 5 rfl (by decide)
    rfl).2.2.2.1

/-- C8: `detect_language` is claimed never to fail, but a non-empty input
with no word tokens (such as `"!!!"`) reaches
`marathi_word_count / len(words)` with `len(words) == 0` and raises
`ZeroDivisionError`; only the exactly-empty input is guarded. -/
theorem c8_detect_language_crash :
    detect_language "!!!" = .error "ZeroDivisionError" ∧
    detect_language "" = .ok "en" := by
  constructor <;> rfl

/-- C9: `normalize_tag_name` is idempotent, and `"Doctors"`,
`"physician"`, `"surgeons"` and their case variants all collapse to the
canonical tag `"doctor"`. -/
theorem c9_normalize_tag_idempotent :
    (∀ t : String,
      normalize_tag_name (normalize_tag_name t) = normalize_tag_name t) ∧
    normalize_tag_name "Doctors" = "doctor" ∧
    normalize_tag_name "physician" = "doctor" ∧
    normalize_tag_name "surgeons" = "doctor" ∧
    normalize_tag_name "DOCTORS" = "doctor" ∧
    normalize_tag_name "Physician" = "doctor" ∧
    normalize_tag_name "SurGeonS" = "doctor" ∧
    normalize_tag_name "doctor" = "doctor" := by
  have hvals : ∀ v ∈ TAG_NAME_MAPPING.map Prod.snd,
      normalize_tag_name v = v := by decide
  refine ⟨fun t => ?_, by decide, by decide, by decide, by decide,
    by decide, by decide, by decide⟩
  cases hl : lookupTag TAG_NAME_MAPPING ⟨pyStrip (pyLower t.data)⟩ with
  | some v =>
    have h1 : normalize_tag_name t = v := by
      simp [normalize_tag_name, hl]
    rw [h1]
    exact hvals v (lookupTag_mem hl)
  | none =>
    have h1 : normalize_tag_name t = ⟨pyStrip (pyLower t.data)⟩ := by
      simp [normalize_tag_name, hl]
    rw [h1]
    have hfix : pyStrip (pyLower (pyStrip (pyLower t.data))) =
        pyStrip (pyLower t.data) := by
      rw [pyStrip_pyLower, pyStrip_idem, ← pyStrip_pyLower, pyLower_idem]
    simp [normalize_tag_name, hfix, hl]

/-- C10: a request without an authorization value leaves the process-wide
auth-token slot unchanged, in every outcome, so its backend calls use
whatever token the most recent token-carrying request stored (the
adapters read this slot: they take it as their `token` argument); a
request supplying a non-empty authorization overwrites the slot with the
value minus its `"Bearer "` markers; and the slot changes only when a
non-`None`, non-empty authorization value was supplied. -/
theorem c10_auth_token_slot (query user_id latitude longitude : String)
    (authorization : Option String) (now : Nat) (llm1 : Option String)
    (s : ServerState) :
    (authorization = none →
      (handlerPrefix query user_id latitude longitude authorization now llm1
          s).state.authToken = s.authToken) ∧
    (∀ a, authorization = some a → a ≠ "" →
      (handlerPrefix query user_id latitude longitude authorization now llm1
          s).state.authToken = some (pyReplace a "Bearer " "")) ∧
    ((handlerPrefix query user_id latitude longitude authorization now llm1
        s).state.authToken ≠ s.authToken →
      authorization ≠ none ∧ authorization ≠ some "") := by
  have hat := handlerPrefix_authToken query user_id latitude longitude
    authorization now llm1 s
  refine ⟨fun h => ?_, fun a ha hne => ?_, fun hch => ⟨?_, ?_⟩⟩
  · subst h; exact hat
  · subst ha; rw [hat]; simp [applyAuth, hne]
  · intro h; subst h; exact hch hat
  · intro h; subst h; exact hch (by rw [hat]; rfl)

/-- C10 witness: a request carrying `"Bearer tok"` stores `"tok"` in the
slot, and one carrying nothing leaves an empty slot empty. -/
theorem c10_auth_token_slot_witness :
    (handlerPrefix "hello" "u1" "1.0" "2.0" (some "Bearer tok") 0 none
        staleSessionState).state.authToken = some "tok" ∧
    (handlerPrefix "hello" "u1" "1.0" "2.0" none 0 none
        staleSessionState).state.authToken = none := by
  constructor
  · have h := (c10_auth_token_slot "hello" "u1" "1.0" "2.0"
      (some "Bearer tok") 0 none staleSessionState).2.1 "Bearer tok" rfl
      (by decide)
    rw [show pyReplace "Bearer tok" "Bearer " "" = "tok" from rfl] at h
    exact h
  · have h := (c10_auth_token_slot "hello" "u1" "1.0" "2.0" none 0 none
      staleSessionState).1 rfl
    simpa [staleSessionState] using h

end Dugguu
